import Mathlib

/-!
Verification development for the AM215 Gamma-fit toolkit.

Shallow embedding of:
  * `50_gamma_mle.py`  — `fit_gamma_loc0`, column selection, report writing;
  * `60_plot_gamma.py` — `_load_values`, `_loglike_gamma_loc0`, `plot_ll_contour`;
  * `peek_behind_the_curtain/generate_data.py` — the synthetic review generator.

Modelling conventions:
  * a float cell after `pd.to_numeric(..., errors="coerce")` is an `Option ℚ`
    (`none` stands for NaN / ±inf / missing, `some q` for a finite value), so the
    `np.isfinite(x) & (x > 0)` filter becomes a decidable `filterPos`;
  * the real-valued likelihood mathematics is embedded over `ℝ`, with scipy's
    `gammaln k` rendered as `Real.log (Real.Gamma k)` (the two agree for `k > 0`,
    the only regime the grid visits);
  * `SystemExit` / uncaught exceptions before any file write are embedded as the
    `.error` branch of an `Except String` result: a run that errors produces no
    report or image artifact value at all.
-/

namespace GammaFit

/-- One float cell of a coerced numeric column: `none` is NaN/±inf/missing. -/
abbrev Cell := Option ℚ

/-- `x[np.isfinite(x) & (x > 0)]`: keep the finite, strictly positive values. -/
def filterPos (l : List Cell) : List ℚ :=
  l.filterMap fun c =>
    match c with
    | some q => if 0 < q then some q else none
    | none => none

/-- Modelled from the spec: the external fixed-location Gamma MLE routine
(`scipy.stats.gamma.fit(x, floc=0)`) is not part of this repository; the spec
only promises that on a non-empty, strictly positive sample it converges to the
likelihood maximum with strictly positive shape and scale.  We therefore model
it as an arbitrary function satisfying that output contract. -/
def GammaFitContract (gfit : List ℚ → ℚ × ℚ) : Prop :=
  ∀ xs : List ℚ, xs ≠ [] → (∀ v ∈ xs, 0 < v) → 0 < (gfit xs).1 ∧ 0 < (gfit xs).2

/-- `fit_gamma_loc0` from `50_gamma_mle.py`: filter to positive finite values,
raise `SystemExit` when nothing is left, else run the library MLE and return
`(k, theta, n, mean)`.  The library optimizer is a parameter `gfit`. -/
def fit_gamma_loc0 (gfit : List ℚ → ℚ × ℚ) (x : List Cell) :
    Except String (ℚ × ℚ × ℕ × ℚ) :=
  let xs := filterPos x
  if xs = [] then .error "No positive finite values to fit."
  else .ok ((gfit xs).1, (gfit xs).2, xs.length, xs.sum / (xs.length : ℚ))

/-- One column of the parsed TSV: its header name, whether pandas assigned it a
numeric dtype, and its cells after `pd.to_numeric(..., errors="coerce")`. -/
structure Col where
  name : String
  numeric : Bool
  values : List Cell

/-- A parsed TSV data frame: the columns in header order. -/
abbrev Table := List Col

/-- Cells of the column named `c` (empty when no such column exists). -/
def colValues (tbl : Table) (c : String) : List Cell :=
  match tbl.find? (fun col => col.name = c) with
  | some col => col.values
  | none => []

/-- Column selection in `main` of `50_gamma_mle.py`: the requested name if
present, else `"lifespan_months"` if present, else the first numeric-dtype
column; `none` models the uncaught `IndexError` when no numeric column exists. -/
def selectColEst (req : String) (tbl : Table) : Option String :=
  if req ∈ tbl.map Col.name then some req
  else if "lifespan_months" ∈ tbl.map Col.name then some "lifespan_months"
  else
    match tbl.filter (fun c => c.numeric) with
    | [] => none
    | c :: _ => some c.name

/-- Column selection in `_load_values` of `60_plot_gamma.py`: the requested
name if present, else the first numeric-dtype column; `none` models the
`SystemExit("No numeric column found and --col not present.")`. -/
def selectColRend (req : String) (tbl : Table) : Option String :=
  if req ∈ tbl.map Col.name then some req
  else
    match tbl.filter (fun c => c.numeric) with
    | [] => none
    | c :: _ => some c.name

/-- Modelled from the spec: "a numeric column is selected by name with an
explicit fallback order (exact name given → a default well-known name → first
numeric-typed column present)".  This is the selection order the spec asserts
for both scripts, stated from the spec's words for comparison. -/
def selectColSpec (req : String) (tbl : Table) : Option String :=
  if req ∈ tbl.map Col.name then some req
  else if "lifespan_months" ∈ tbl.map Col.name then some "lifespan_months"
  else
    match tbl.filter (fun c => c.numeric) with
    | [] => none
    | c :: _ => some c.name

/-- The report text file `write_report` produces, at value level. -/
structure Report where
  col : String
  k : ℚ
  theta : ℚ
  n : ℕ
  mean : ℚ

/-- `main` of `50_gamma_mle.py` up to and including the artifact it writes:
select the column, coerce it, fit; the report exists only if the fit returned.
An `.error` result models a `SystemExit`/`IndexError` raised before
`write_report` runs, so no report file is written on failure. -/
def runEstimator (gfit : List ℚ → ℚ × ℚ) (tbl : Table) (colArg : String) :
    Except String Report :=
  match selectColEst colArg tbl with
  | none => .error "IndexError: no numeric column"
  | some c =>
    match fit_gamma_loc0 gfit (colValues tbl c) with
    | .error e => .error e
    | .ok r => .ok { col := c, k := r.1, theta := r.2.1, n := r.2.2.1, mean := r.2.2.2 }

/-- `_load_values` of `60_plot_gamma.py`: select the column, coerce, filter to
positive finite values, `SystemExit` when empty. -/
def load_values (tbl : Table) (colArg : String) : Except String (List ℚ) :=
  match selectColRend colArg tbl with
  | none => .error "No numeric column found and --col not present."
  | some c =>
    let xs := filterPos (colValues tbl c)
    if xs = [] then .error "No positive finite values to plot."
    else .ok xs

end GammaFit

namespace GammaFit

/-! ### Log-likelihood surface (`60_plot_gamma.py`), over `ℝ` -/

/-- Density of Gamma(k, theta, loc=0): `x^(k-1) e^(-x/theta) / (theta^k Γ(k))`. -/
noncomputable def gammaPdf (k θ v : ℝ) : ℝ :=
  v ^ (k - 1) * Real.exp (-v / θ) / (θ ^ k * Real.Gamma k)

/-- `_loglike_gamma_loc0`: `(k-1)·S1 − S2/θ − n·k·ln θ − n·lnΓ(k)` with
`S1 = Σ ln xᵢ`, `S2 = Σ xᵢ`, computed from the sample. -/
noncomputable def loglike_gamma_loc0 (x : List ℝ) (k θ : ℝ) : ℝ :=
  (k - 1) * (x.map Real.log).sum - x.sum / θ
    - (x.length : ℝ) * k * Real.log θ - (x.length : ℝ) * Real.log (Real.Gamma k)

/-- One cell of the vectorized grid evaluation inside `plot_ll_contour`:
`(K-1)*s1 - s2/T - n*K*ln(T) - n*lnΓ(K)` with `s1`, `s2`, `n` precomputed
once from the sample and reused at every grid point. -/
noncomputable def llCell (n : ℕ) (s1 s2 k θ : ℝ) : ℝ :=
  (k - 1) * s1 - s2 / θ - (n : ℝ) * k * Real.log θ - (n : ℝ) * Real.log (Real.Gamma k)

/-- `np.linspace(lo, hi, n)`: `n` equally spaced points from `lo` to `hi`. -/
noncomputable def linspace (lo hi : ℝ) (n : ℕ) : List ℝ :=
  (List.range n).map fun i : ℕ => lo + (hi - lo) * (i : ℝ) / ((n : ℝ) - 1)

/-- `np.nanmax` over a list of (finite) reals; 0 on the empty list. -/
noncomputable def listMax : List ℝ → ℝ
  | [] => 0
  | a :: t => t.foldl max a

/-- What `plot_ll_contour` computes before drawing: the two axes, the
peak-normalized grid `z` (row-major over theta rows), and the contour levels. -/
structure ContourSpec where
  K : List ℝ
  T : List ℝ
  z : List ℝ
  levels : List ℝ

/-- `plot_ll_contour` of `60_plot_gamma.py`, at value level: grid ranges
`[max(1e-3, 0.25·k0), 4·k0] × [max(1e-6, 0.25·th0), 4·th0]` with 180 points
each, log-likelihood from the once-computed sufficient statistics, peak
subtraction, fixed deviance levels. -/
noncomputable def plot_ll_contour (x : List ℝ) (k0 θ0 : ℝ) : ContourSpec :=
  let kLo := max 1e-3 (k0 * 0.25)
  let kHi := k0 * 4.0
  let thLo := max 1e-6 (θ0 * 0.25)
  let thHi := θ0 * 4.0
  let K := linspace kLo kHi 180
  let T := linspace thLo thHi 180
  let n := x.length
  let s1 := (x.map Real.log).sum
  let s2 := x.sum
  let ll := (T.map fun θ => K.map fun k => llCell n s1 s2 k θ).flatten
  { K := K, T := T, z := ll.map (fun v => v - listMax ll),
    levels := [-9.21, -5.99, -3.00, -2.00, -1.00, -0.50, -0.10] }

/-- The rendered pair of figures at value level: the renderer reaches this
only after `_load_values` succeeded. -/
structure RenderOut where
  contour : ContourSpec

/-- `main` of `60_plot_gamma.py`: load values (fatal on empty/none), then
build the plots.  `.error` models a `SystemExit` raised before any `savefig`. -/
noncomputable def runRenderer (tbl : Table) (colArg : String) (k θ : ℝ) :
    Except String RenderOut :=
  match load_values tbl colArg with
  | .error e => .error e
  | .ok xs => .ok { contour := plot_ll_contour (xs.map (fun q => (q : ℝ))) k θ }

end GammaFit

namespace GammaFit

/-! ### C1: the closed-form log-likelihood equals the summed log-density -/

theorem log_gammaPdf (k θ v : ℝ) (hv : 0 < v) (hk : 0 < k) (hθ : 0 < θ) :
    Real.log (gammaPdf k θ v) =
      (k - 1) * Real.log v - v / θ - k * Real.log θ - Real.log (Real.Gamma k) := by
  have hΓ : 0 < Real.Gamma k := Real.Gamma_pos_of_pos hk
  have h1 : (0:ℝ) < v ^ (k - 1) := Real.rpow_pos_of_pos hv _
  have h2 : (0:ℝ) < Real.exp (-v / θ) := Real.exp_pos _
  have h3 : (0:ℝ) < θ ^ k := Real.rpow_pos_of_pos hθ _
  rw [gammaPdf, Real.log_div (by positivity) (by positivity), Real.log_mul h1.ne' h2.ne',
    Real.log_mul h3.ne' hΓ.ne', Real.log_rpow hv, Real.log_rpow hθ, Real.log_exp]
  ring

theorem sum_log_gammaPdf (k θ : ℝ) (hk : 0 < k) (hθ : 0 < θ) :
    ∀ x : List ℝ, (∀ v ∈ x, 0 < v) →
      (x.map fun v => Real.log (gammaPdf k θ v)).sum = loglike_gamma_loc0 x k θ := by
  intro x
  induction x with
  | nil => intro _; simp [loglike_gamma_loc0]
  | cons a t ih =>
    intro h
    have ha : 0 < a := h a (by simp)
    have ht : ∀ v ∈ t, 0 < v := fun v hv => h v (by simp [hv])
    simp only [List.map_cons, List.sum_cons, ih ht, log_gammaPdf k θ a ha hk hθ,
      loglike_gamma_loc0, List.length_cons]
    push_cast
    ring

/-- Claim C1: for a non-empty strictly positive sample and `k, θ > 0`, the
value of `_loglike_gamma_loc0` is `(k-1)·S1 − S2/θ − n·k·ln θ − n·lnΓ(k)` and
equals the sum over the sample of the log of the Gamma(k, θ, loc=0) density;
moreover the vectorized grid cell of `plot_ll_contour`, computed from the
once-evaluated sufficient statistics `S1`, `S2`, agrees with
`_loglike_gamma_loc0` at every grid parameter pair. -/
theorem loglike_eq_sum_log_density (x : List ℝ) (k θ : ℝ) (hx : x ≠ [])
    (hpos : ∀ v ∈ x, 0 < v) (hk : 0 < k) (hθ : 0 < θ) :
    loglike_gamma_loc0 x k θ = (x.map fun v => Real.log (gammaPdf k θ v)).sum ∧
    ∀ k' θ' : ℝ,
      llCell x.length ((x.map Real.log).sum) x.sum k' θ' = loglike_gamma_loc0 x k' θ' :=
  ⟨(sum_log_gammaPdf k θ hk hθ x hpos).symm, fun _ _ => rfl⟩

/-- Concrete instance of `loglike_eq_sum_log_density` at `x = [1]`, `k = θ = 1`. -/
theorem loglike_eq_sum_log_density_witness :
    (([(1:ℝ)] ≠ []) ∧ (∀ v ∈ [(1:ℝ)], 0 < v) ∧ ((0:ℝ) < 1) ∧ ((0:ℝ) < 1)) ∧
    (loglike_gamma_loc0 [1] 1 1 = (([1] : List ℝ).map fun v => Real.log (gammaPdf 1 1 v)).sum ∧
      ∀ k' θ' : ℝ,
        llCell ([(1:ℝ)]).length (([(1:ℝ)].map Real.log).sum) ([(1:ℝ)]).sum k' θ' =
          loglike_gamma_loc0 [1] k' θ') :=
  ⟨⟨by simp, by simp, one_pos, one_pos⟩,
    loglike_eq_sum_log_density [1] 1 1 (by simp) (by simp) one_pos one_pos⟩

/-! ### C4: peak subtraction yields a grid with maximum exactly 0 -/

theorem self_le_foldl_max : ∀ (t : List ℝ) (a : ℝ), a ≤ t.foldl max a := by
  intro t
  induction t with
  | nil => intro a; simp
  | cons b t ih =>
    intro a
    simp only [List.foldl_cons]
    exact le_trans (le_max_left a b) (ih (max a b))

theorem mem_le_foldl_max : ∀ (t : List ℝ) (a v : ℝ), v ∈ t → v ≤ t.foldl max a := by
  intro t
  induction t with
  | nil => intro a v hv; simp at hv
  | cons b t ih =>
    intro a v hv
    simp only [List.foldl_cons]
    rcases List.mem_cons.mp hv with rfl | hv'
    · exact le_trans (le_max_right a v) (self_le_foldl_max t (max a v))
    · exact ih (max a b) v hv'

theorem foldl_max_mem : ∀ (t : List ℝ) (a : ℝ), t.foldl max a ∈ a :: t := by
  intro t
  induction t with
  | nil => intro a; simp
  | cons b t ih =>
    intro a
    simp only [List.foldl_cons]
    rcases List.mem_cons.mp (ih (max a b)) with h | h
    · rcases max_choice a b with hc | hc
      · rw [h, hc]; exact List.mem_cons_self _ _
      · rw [h, hc]; exact List.mem_cons_of_mem _ (List.mem_cons_self _ _)
    · exact List.mem_cons_of_mem _ (List.mem_cons_of_mem _ h)

theorem foldl_max_map_sub (c : ℝ) : ∀ (t : List ℝ) (a : ℝ),
    (t.map (fun v => v - c)).foldl max (a - c) = t.foldl max a - c := by
  intro t
  induction t with
  | nil => intro a; simp
  | cons b t ih =>
    intro a
    simp only [List.map_cons, List.foldl_cons, max_sub_sub_right]
    exact ih (max a b)

theorem le_listMax {l : List ℝ} {v : ℝ} (hv : v ∈ l) : v ≤ listMax l := by
  cases l with
  | nil => simp at hv
  | cons a t =>
    rcases List.mem_cons.mp hv with rfl | h
    · exact self_le_foldl_max t v
    · exact mem_le_foldl_max t a v h

theorem listMax_map_sub {l : List ℝ} (h : l ≠ []) (c : ℝ) :
    listMax (l.map (fun v => v - c)) = listMax l - c := by
  cases l with
  | nil => exact absurd rfl h
  | cons a t => exact foldl_max_map_sub c t a

theorem linspace_ne_nil {lo hi : ℝ} {n : ℕ} (h : n ≠ 0) : linspace lo hi n ≠ [] := by
  intro hcontra
  apply h
  have hlen := congrArg List.length hcontra
  rwa [linspace, List.length_map, List.length_range, List.length_nil] at hlen

theorem flatten_grid_ne_nil {f : ℝ → ℝ → ℝ} {K T : List ℝ} (hK : K ≠ []) (hT : T ≠ []) :
    (T.map fun θ => K.map fun k => f k θ).flatten ≠ [] := by
  cases T with
  | nil => exact absurd rfl hT
  | cons θ t =>
    intro hcontra
    rw [List.map_cons, List.flatten_cons, List.append_eq_nil] at hcontra
    exact hK (List.map_eq_nil_iff.mp hcontra.1)

/-- Claim C4: for every non-empty positive sample and every `k0, θ0 > 0`, the
normalized grid `z` of `plot_ll_contour` (log-likelihood minus its maximum)
has maximum value exactly 0, and every cell is ≤ 0. -/
theorem zgrid_peak_exactly_zero (x : List ℝ) (k0 θ0 : ℝ) (hx : x ≠ [])
    (hpos : ∀ v ∈ x, 0 < v) (hk : 0 < k0) (hθ : 0 < θ0) :
    listMax (plot_ll_contour x k0 θ0).z = 0 ∧
    ∀ v ∈ (plot_ll_contour x k0 θ0).z, v ≤ 0 := by
  have hx0 := hx
  have hpos0 := hpos
  have hK : linspace (max 1e-3 (k0 * 0.25)) (k0 * 4.0) 180 ≠ [] :=
    linspace_ne_nil (by norm_num)
  have hT : linspace (max 1e-6 (θ0 * 0.25)) (θ0 * 4.0) 180 ≠ [] :=
    linspace_ne_nil (by norm_num)
  have hll :
      ((linspace (max 1e-6 (θ0 * 0.25)) (θ0 * 4.0) 180).map fun θ =>
        (linspace (max 1e-3 (k0 * 0.25)) (k0 * 4.0) 180).map fun k =>
          llCell x.length ((x.map Real.log).sum) x.sum k θ).flatten ≠ [] :=
    flatten_grid_ne_nil hK hT
  have hz : (plot_ll_contour x k0 θ0).z =
      (((linspace (max 1e-6 (θ0 * 0.25)) (θ0 * 4.0) 180).map fun θ =>
        (linspace (max 1e-3 (k0 * 0.25)) (k0 * 4.0) 180).map fun k =>
          llCell x.length ((x.map Real.log).sum) x.sum k θ).flatten).map
        (fun v => v -
          listMax ((linspace (max 1e-6 (θ0 * 0.25)) (θ0 * 4.0) 180).map fun θ =>
            (linspace (max 1e-3 (k0 * 0.25)) (k0 * 4.0) 180).map fun k =>
              llCell x.length ((x.map Real.log).sum) x.sum k θ).flatten) := rfl
  constructor
  · rw [hz, listMax_map_sub hll, sub_self]
  · intro v hv
    rw [hz, List.mem_map] at hv
    obtain ⟨w, hw, rfl⟩ := hv
    exact sub_nonpos.mpr (le_listMax hw)

/-- Concrete instance of `zgrid_peak_exactly_zero` at `x = [1]`, `k0 = θ0 = 1`. -/
theorem zgrid_peak_exactly_zero_witness :
    (([(1:ℝ)] ≠ []) ∧ (∀ v ∈ [(1:ℝ)], 0 < v) ∧ ((0:ℝ) < 1) ∧ ((0:ℝ) < 1)) ∧
    (listMax (plot_ll_contour [1] 1 1).z = 0 ∧ ∀ v ∈ (plot_ll_contour [1] 1 1).z, v ≤ 0) :=
  ⟨⟨by simp, by simp, one_pos, one_pos⟩,
    zgrid_peak_exactly_zero [1] 1 1 (by simp) (by simp) one_pos one_pos⟩

/-! ### C8: the contour levels are a fixed constant list -/

/-- Claim C8: the contour levels used by `plot_ll_contour` are exactly the
fixed deviance drops `[-9.21, -5.99, -3.00, -2.00, -1.00, -0.50, -0.10]`,
independent of the sample and of `(k0, θ0)`. -/
theorem contour_levels_fixed (x : List ℝ) (k0 θ0 : ℝ) :
    (plot_ll_contour x k0 θ0).levels =
      [-9.21, -5.99, -3.00, -2.00, -1.00, -0.50, -0.10] := rfl

end GammaFit

namespace GammaFit

/-! ### C6: grid ranges and clamped lower bounds -/

theorem linspace_length (lo hi : ℝ) (n : ℕ) : (linspace lo hi n).length = n := by
  simp [linspace]

theorem mem_linspace180 {lo hi v : ℝ} :
    v ∈ linspace lo hi 180 ↔ ∃ i : ℕ, i < 180 ∧ v = lo + (hi - lo) * (i : ℝ) / 179 := by
  constructor
  · intro h
    rw [linspace, List.mem_map] at h
    obtain ⟨i, hi, rfl⟩ := h
    exact ⟨i, List.mem_range.mp hi, by norm_num⟩
  · rintro ⟨i, hi, rfl⟩
    rw [linspace, List.mem_map]
    exact ⟨i, List.mem_range.mpr hi, by norm_num⟩

theorem linspace180_bounds {lo hi : ℝ} (hle : lo ≤ hi) {v : ℝ}
    (hv : v ∈ linspace lo hi 180) : lo ≤ v ∧ v ≤ hi := by
  obtain ⟨i, hi180, rfl⟩ := mem_linspace180.mp hv
  have h0 : (0:ℝ) ≤ (i:ℝ) := Nat.cast_nonneg i
  have h179 : (i:ℝ) ≤ 179 := by exact_mod_cast Nat.lt_succ_iff.mp hi180
  have hd : (0:ℝ) ≤ hi - lo := sub_nonneg.mpr hle
  constructor
  · have : 0 ≤ (hi - lo) * (i:ℝ) / 179 := div_nonneg (mul_nonneg hd h0) (by norm_num)
    linarith
  · have : (hi - lo) * (i:ℝ) / 179 ≤ hi - lo := by
      rw [div_le_iff₀ (by norm_num : (0:ℝ) < 179)]
      nlinarith
    linarith

theorem left_mem_linspace180 (lo hi : ℝ) : lo ∈ linspace lo hi 180 :=
  mem_linspace180.mpr ⟨0, by norm_num, by norm_num⟩

theorem right_mem_linspace180 (lo hi : ℝ) : hi ∈ linspace lo hi 180 := by
  apply mem_linspace180.mpr
  refine ⟨179, by norm_num, ?_⟩
  rw [mul_div_assoc]
  norm_num

theorem linspace180_getElem {i : ℕ} (h : i < 180) (lo hi : ℝ) :
    (linspace lo hi 180)[i]? = some (lo + (hi - lo) * (i : ℝ) / 179) := by
  rw [linspace, List.getElem?_map, List.getElem?_range h]
  norm_num

theorem linspace180_spacing {lo hi : ℝ} {i : ℕ} (h : i + 1 < 180) :
    ∃ a b : ℝ, (linspace lo hi 180)[i]? = some a ∧ (linspace lo hi 180)[i+1]? = some b ∧
      b - a = (hi - lo) / 179 :=
  ⟨_, _, linspace180_getElem (by omega) lo hi, linspace180_getElem h lo hi, by
    push_cast
    ring⟩

/-- Counterexample to claim C6 as stated: at `k0 = 10⁻⁴` (with `θ0 = 1` and
sample `[1]`) the k-axis of the grid contains the value `1/2500 = 4·10⁻⁴`,
which is below the claimed floor `10⁻³`: when `4·k0 < 10⁻³` the clamped lower
bound exceeds the upper bound, and `linspace` descends below the clamp. -/
theorem grid_k_floor_counterexample :
    ∃ k ∈ (plot_ll_contour [1] ((1:ℝ)/10000) 1).K, k < 1e-3 := by
  have hK : (plot_ll_contour [1] ((1:ℝ)/10000) 1).K =
      linspace (max 1e-3 ((1:ℝ)/10000 * 0.25)) ((1:ℝ)/10000 * 4.0) 180 := rfl
  refine ⟨(1:ℝ)/2500, ?_, by norm_num⟩
  rw [hK]
  apply mem_linspace180.mpr
  refine ⟨179, by norm_num, ?_⟩
  rw [show max (1e-3:ℝ) ((1:ℝ)/10000 * 0.25) = 1e-3 from max_eq_left (by norm_num)]
  rw [mul_div_assoc]
  norm_num

/-- Claim C6 (amended): for every `k0 > 0`, `θ0 > 0` with `4·k0 ≥ 1e-3` and
`4·θ0 ≥ 1e-6`, the grid of `plot_ll_contour` has k-range exactly
`[max(1e-3, 0.25·k0), 4·k0]` and theta-range exactly
`[max(1e-6, 0.25·θ0), 4·θ0]`, each sampled at 180 equally spaced points, and
every grid point satisfies `k ≥ 1e-3` and `θ ≥ 1e-6`. -/
theorem grid_construction (x : List ℝ) (k0 θ0 : ℝ) (hk : 0 < k0) (hθ : 0 < θ0)
    (hk4 : (1e-3:ℝ) ≤ k0 * 4.0) (hθ4 : (1e-6:ℝ) ≤ θ0 * 4.0) :
    (plot_ll_contour x k0 θ0).K = linspace (max 1e-3 (k0 * 0.25)) (k0 * 4.0) 180 ∧
    (plot_ll_contour x k0 θ0).T = linspace (max 1e-6 (θ0 * 0.25)) (θ0 * 4.0) 180 ∧
    (plot_ll_contour x k0 θ0).K.length = 180 ∧
    (plot_ll_contour x k0 θ0).T.length = 180 ∧
    max 1e-3 (k0 * 0.25) ∈ (plot_ll_contour x k0 θ0).K ∧
    k0 * 4.0 ∈ (plot_ll_contour x k0 θ0).K ∧
    max 1e-6 (θ0 * 0.25) ∈ (plot_ll_contour x k0 θ0).T ∧
    θ0 * 4.0 ∈ (plot_ll_contour x k0 θ0).T ∧
    (∀ k ∈ (plot_ll_contour x k0 θ0).K,
      max 1e-3 (k0 * 0.25) ≤ k ∧ k ≤ k0 * 4.0 ∧ (1e-3:ℝ) ≤ k) ∧
    (∀ t ∈ (plot_ll_contour x k0 θ0).T,
      max 1e-6 (θ0 * 0.25) ≤ t ∧ t ≤ θ0 * 4.0 ∧ (1e-6:ℝ) ≤ t) ∧
    (∀ i : ℕ, i + 1 < 180 → ∃ a b : ℝ, (plot_ll_contour x k0 θ0).K[i]? = some a ∧
      (plot_ll_contour x k0 θ0).K[i+1]? = some b ∧
      b - a = (k0 * 4.0 - max 1e-3 (k0 * 0.25)) / 179) ∧
    (∀ i : ℕ, i + 1 < 180 → ∃ a b : ℝ, (plot_ll_contour x k0 θ0).T[i]? = some a ∧
      (plot_ll_contour x k0 θ0).T[i+1]? = some b ∧
      b - a = (θ0 * 4.0 - max 1e-6 (θ0 * 0.25)) / 179) := by
  have hKle : max 1e-3 (k0 * 0.25) ≤ k0 * 4.0 := max_le hk4 (by nlinarith)
  have hTle : max 1e-6 (θ0 * 0.25) ≤ θ0 * 4.0 := max_le hθ4 (by nlinarith)
  have hKeq : (plot_ll_contour x k0 θ0).K =
      linspace (max 1e-3 (k0 * 0.25)) (k0 * 4.0) 180 := rfl
  have hTeq : (plot_ll_contour x k0 θ0).T =
      linspace (max 1e-6 (θ0 * 0.25)) (θ0 * 4.0) 180 := rfl
  refine ⟨hKeq, hTeq, ?_, ?_, ?_, ?_, ?_, ?_, ?_, ?_, ?_, ?_⟩
  · rw [hKeq, linspace_length]
  · rw [hTeq, linspace_length]
  · rw [hKeq]; exact left_mem_linspace180 _ _
  · rw [hKeq]; exact right_mem_linspace180 _ _
  · rw [hTeq]; exact left_mem_linspace180 _ _
  · rw [hTeq]; exact right_mem_linspace180 _ _
  · intro k hkmem
    rw [hKeq] at hkmem
    have hb := linspace180_bounds hKle hkmem
    exact ⟨hb.1, hb.2, le_trans (le_max_left _ _) hb.1⟩
  · intro t htmem
    rw [hTeq] at htmem
    have hb := linspace180_bounds hTle htmem
    exact ⟨hb.1, hb.2, le_trans (le_max_left _ _) hb.1⟩
  · intro i hi
    rw [hKeq]
    exact linspace180_spacing hi
  · intro i hi
    rw [hTeq]
    exact linspace180_spacing hi

/-- Concrete instance of `grid_construction` at `x = [1]`, `k0 = θ0 = 1`. -/
theorem grid_construction_witness :
    (((0:ℝ) < 1) ∧ ((1e-3:ℝ) ≤ 1 * 4.0) ∧ ((1e-6:ℝ) ≤ 1 * 4.0)) ∧
    ((plot_ll_contour [1] 1 1).K.length = 180 ∧
      ∀ k ∈ (plot_ll_contour [1] 1 1).K, (1e-3:ℝ) ≤ k) :=
  ⟨⟨one_pos, by norm_num, by norm_num⟩,
    (grid_construction [1] 1 1 one_pos one_pos (by norm_num) (by norm_num)).2.2.1,
    fun k hk =>
      ((grid_construction [1] 1 1 one_pos one_pos (by norm_num)
        (by norm_num)).2.2.2.2.2.2.2.2.1 k hk).2.2⟩

end GammaFit

namespace GammaFit

/-! ### C2 / C3 / C9: filtering, fatal errors, column selection -/

theorem mem_filterPos {l : List Cell} {q : ℚ} :
    q ∈ filterPos l ↔ some q ∈ l ∧ 0 < q := by
  rw [filterPos, List.mem_filterMap]
  constructor
  · rintro ⟨c, hc, hf⟩
    cases c with
    | none => simp at hf
    | some r =>
      by_cases hr : 0 < r
      · simp only [hr, if_pos] at hf
        cases hf
        exact ⟨hc, hr⟩
      · simp [hr] at hf
  · rintro ⟨hq, hq0⟩
    exact ⟨some q, hq, by simp [hq0]⟩

theorem filterPos_pos (l : List Cell) : ∀ v ∈ filterPos l, 0 < v :=
  fun _ hv => (mem_filterPos.mp hv).2

/-- Claim C2: for every input containing at least one strictly positive finite
value and any library optimizer satisfying its documented contract,
`fit_gamma_loc0` returns `(k, θ, n, mean)` with `k > 0`, `θ > 0`, `n` the count
of finite strictly positive input values, and `mean` the arithmetic mean of
exactly those filtered values. -/
theorem fit_gamma_loc0_spec (gfit : List ℚ → ℚ × ℚ) (hc : GammaFitContract gfit)
    (x : List Cell) (hne : ∃ q : ℚ, some q ∈ x ∧ 0 < q) :
    ∃ k θ : ℚ, fit_gamma_loc0 gfit x =
        .ok (k, θ, (filterPos x).length, (filterPos x).sum / ((filterPos x).length : ℚ)) ∧
      0 < k ∧ 0 < θ := by
  obtain ⟨q, hq, hq0⟩ := hne
  have hmem : q ∈ filterPos x := mem_filterPos.mpr ⟨hq, hq0⟩
  have hne' : filterPos x ≠ [] := List.ne_nil_of_mem hmem
  have hpos := hc (filterPos x) hne' (filterPos_pos x)
  refine ⟨(gfit (filterPos x)).1, (gfit (filterPos x)).2, ?_, hpos.1, hpos.2⟩
  simp [fit_gamma_loc0, hne']

/-- Concrete instance of `fit_gamma_loc0_spec` with the constant optimizer
`fun _ => (1, 1)` (which meets the contract) on the sample `[some 1]`. -/
theorem fit_gamma_loc0_spec_witness :
    (GammaFitContract (fun _ => ((1:ℚ), (1:ℚ))) ∧ (∃ q : ℚ, some q ∈ [some (1:ℚ)] ∧ 0 < q)) ∧
    ∃ k θ : ℚ, fit_gamma_loc0 (fun _ => (1, 1)) [some (1:ℚ)] =
        .ok (k, θ, (filterPos [some (1:ℚ)]).length,
          (filterPos [some (1:ℚ)]).sum / ((filterPos [some (1:ℚ)]).length : ℚ)) ∧
      0 < k ∧ 0 < θ :=
  ⟨⟨fun _ _ _ => ⟨one_pos, one_pos⟩, ⟨1, by simp, one_pos⟩⟩,
    fit_gamma_loc0_spec (fun _ => (1, 1)) (fun _ _ _ => ⟨one_pos, one_pos⟩)
      [some (1:ℚ)] ⟨1, by simp, one_pos⟩⟩

/-- Claim C3: whenever the selected column's filtered sample is empty, both the
estimator and the renderer terminate with a fatal error: the run result is the
`.error` branch, so no report and no image artifact value is produced. -/
theorem empty_filtered_sample_fatal (gfit : List ℚ → ℚ × ℚ) (tbl : Table)
    (colArg : String) (k θ : ℝ) :
    (∀ c, selectColEst colArg tbl = some c → filterPos (colValues tbl c) = [] →
      ∃ msg, runEstimator gfit tbl colArg = .error msg) ∧
    (∀ c, selectColRend colArg tbl = some c → filterPos (colValues tbl c) = [] →
      ∃ msg, runRenderer tbl colArg k θ = .error msg) := by
  constructor
  · intro c hsel hemp
    refine ⟨"No positive finite values to fit.", ?_⟩
    rw [runEstimator, hsel]
    simp [fit_gamma_loc0, hemp]
  · intro c hsel hemp
    refine ⟨"No positive finite values to plot.", ?_⟩
    rw [runRenderer, load_values, hsel]
    simp [hemp]

/-- Concrete instance of `empty_filtered_sample_fatal`: a table whose only
column `lifespan_months` holds the single non-positive value `-1`. -/
theorem empty_filtered_sample_fatal_witness :
    (selectColEst "lifespan_months" [⟨"lifespan_months", true, [some (-1:ℚ)]⟩] =
        some "lifespan_months" ∧
      selectColRend "lifespan_months" [⟨"lifespan_months", true, [some (-1:ℚ)]⟩] =
        some "lifespan_months" ∧
      filterPos (colValues [⟨"lifespan_months", true, [some (-1:ℚ)]⟩] "lifespan_months") = []) ∧
    (∃ msg, runEstimator (fun _ => ((1:ℚ), (1:ℚ)))
        [⟨"lifespan_months", true, [some (-1:ℚ)]⟩] "lifespan_months" = .error msg) ∧
    (∃ msg, runRenderer [⟨"lifespan_months", true, [some (-1:ℚ)]⟩]
        "lifespan_months" 1 1 = .error msg) :=
  ⟨⟨by decide, by decide, by decide⟩,
    (empty_filtered_sample_fatal (fun _ => (1, 1))
        [⟨"lifespan_months", true, [some (-1:ℚ)]⟩] "lifespan_months" 1 1).1
      "lifespan_months" (by decide) (by decide),
    (empty_filtered_sample_fatal (fun _ => (1, 1))
        [⟨"lifespan_months", true, [some (-1:ℚ)]⟩] "lifespan_months" 1 1).2
      "lifespan_months" (by decide) (by decide)⟩

/-- Counterexample to claim C9 as stated: with columns `a` (numeric) and
`lifespan_months` (numeric) and the requested name `foo` absent, the renderer's
`_load_values` picks the first numeric column `a`, not the well-known default
`lifespan_months` the spec's three-step fallback order predicts. -/
theorem renderer_column_order_counterexample :
    selectColRend "foo" [⟨"a", true, []⟩, ⟨"lifespan_months", true, []⟩] = some "a" ∧
    selectColSpec "foo" [⟨"a", true, []⟩, ⟨"lifespan_months", true, []⟩] =
      some "lifespan_months" ∧
    selectColRend "foo" [⟨"a", true, []⟩, ⟨"lifespan_months", true, []⟩] ≠
      selectColSpec "foo" [⟨"a", true, []⟩, ⟨"lifespan_months", true, []⟩] := by
  refine ⟨by decide, by decide, by decide⟩

/-- Claim C9 (amended): the estimator selects by the spec's three-step fallback
order (exact name → `"lifespan_months"` → first numeric column); the renderer
selects by exact name and otherwise falls straight back to the first numeric
column (the well-known default name participates only as the CLI default value
of the requested name); and when no column can be selected the run fails with a
fatal error before producing anything. -/
theorem column_selection_order (gfit : List ℚ → ℚ × ℚ) (req : String) (tbl : Table)
    (k θ : ℝ) :
    selectColEst req tbl = selectColSpec req tbl ∧
    (req ∈ tbl.map Col.name → selectColRend req tbl = some req) ∧
    (req ∉ tbl.map Col.name →
      selectColRend req tbl = ((tbl.filter fun c => c.numeric).head?.map Col.name)) ∧
    (selectColEst req tbl = none → ∃ msg, runEstimator gfit tbl req = .error msg) ∧
    (selectColRend req tbl = none → ∃ msg, runRenderer tbl req k θ = .error msg) := by
  refine ⟨rfl, ?_, ?_, ?_, ?_⟩
  · intro h
    simp [selectColRend, h]
  · intro h
    rw [selectColRend, if_neg h]
    cases hf : tbl.filter fun c => c.numeric with
    | nil => simp
    | cons c t => simp
  · intro h
    refine ⟨"IndexError: no numeric column", ?_⟩
    rw [runEstimator, h]
  · intro h
    refine ⟨"No numeric column found and --col not present.", ?_⟩
    rw [runRenderer, load_values, h]

/-- Concrete instance of `column_selection_order` on the empty table (no
column selectable at all) with requested name `foo`. -/
theorem column_selection_order_witness :
    (selectColEst "foo" ([] : Table) = none ∧ selectColRend "foo" ([] : Table) = none) ∧
    (∃ msg, runEstimator (fun _ => ((1:ℚ), (1:ℚ))) ([] : Table) "foo" = .error msg) ∧
    (∃ msg, runRenderer ([] : Table) "foo" 1 1 = .error msg) :=
  ⟨⟨by decide, by decide⟩,
    (column_selection_order (fun _ => (1, 1)) "foo" ([] : Table) 1 1).2.2.2.1 (by decide),
    (column_selection_order (fun _ => (1, 1)) "foo" ([] : Table) 1 1).2.2.2.2 (by decide)⟩

end GammaFit

namespace GenData

/-! ### Synthetic review generator (`peek_behind_the_curtain/generate_data.py`)

The Python RNG streams (`random.Random(seed)` and numpy's seeded generators)
are fixed deterministic algorithms; they are embedded as an abstract bundle
`RandomOps` of pure state-transition functions, with `ℕ` as the generator
state.  The one genuinely nondeterministic input of the program — the external
Hugging Face text-generation endpoint together with every failure mode of the
call — is embedded as a function `net : String → Option HFResp`, where `none`
stands for any raised exception (timeout, network error, JSON decode failure)
and `HFResp.other` for a parseable but unexpected payload. -/

/-- Machine epsilon of an IEEE double: `np.finfo(float).eps = 2⁻⁵²`. -/
def eps : ℚ := 1 / 2 ^ 52

/-- Left-pad a decimal string with zeros to `d` digits. -/
def padZeros (d : ℕ) (s : String) : String :=
  String.mk (List.replicate (d - s.length) '0') ++ s

/-- Fixed-point rendering of `q` with `d` fractional digits (the f-string
`f"{q:.df}"` of the source, evaluated on exact rationals; the claims only use
that the result is non-empty and determined by `q`). -/
def fmtFixed (d : ℕ) (q : ℚ) : String :=
  let scaled : ℤ := ⌊q * (10 ^ d : ℚ) + 1 / 2⌋
  let n := scaled.natAbs
  let sign := if scaled < 0 then "-" else ""
  sign ++ toString (n / 10 ^ d) ++ "." ++ padZeros d (toString (n % 10 ^ d))

/-- The deterministic state-transition interface of the seeded RNG streams. -/
structure RandomOps where
  init : ℕ → ℕ
  randrange : ℕ → ℕ → ℕ × ℕ
  choiceIdx : ℕ → ℕ → ℕ × ℕ
  choicesW : List ℚ → ℕ → ℕ × ℕ
  randUnit : ℕ → ℚ × ℕ
  uniform : ℚ → ℚ → ℕ → ℚ × ℕ
  gammaSample : ℚ → ℚ → ℕ → ℕ → List ℚ
  shufflePerm : ℕ → ℕ → List ℕ × ℕ

/-- Shapes the Hugging Face endpoint's JSON answer can take, as far as
`_hf_generate` distinguishes them. -/
inductive HFResp where
  | listGen (s : String)
  | plainStr (s : String)
  | other

/-- `_hf_generate`: returns `""` when no token is configured; on a configured
token it calls the endpoint and returns the stripped generated text for the
two recognized payload shapes, `""` for an unexpected payload, and `""` for
any raised exception (`net prompt = none`). -/
def hf_generate (net : String → Option HFResp) (token : Option String)
    (prompt : String) : String :=
  match token with
  | none => ""
  | some _ =>
    match net prompt with
    | none => ""
    | some (HFResp.listGen s) => s.trim
    | some (HFResp.plainStr s) => s.trim
    | some HFResp.other => ""

/-- `FAILURE_PROMPT_TEMPLATE.format(brand=brand, months=months)`. -/
def FAILURE_PROMPT (brand : String) (months : ℚ) : String :=
  "You are writing a short customer review about a laptop battery that stopped working.\nBrand: "
    ++ brand
    ++ "\nTime since purchase when it stopped working: about "
    ++ fmtFixed 1 months
    ++ " months\n\nWrite a concise review title and a concise review body (1-2 sentences). Do not mention exact months every time; vary wording like \"stopped working,\" \"gave out,\" \"busted,\" or \"died\". It should clearly imply the battery stopped working. Output as:\n\nTITLE: <one short line>\nBODY: <one or two short sentences>"

/-- `OTHER_PROMPT_TEMPLATE.format(brand=brand)`. -/
def OTHER_PROMPT (brand : String) : String :=
  "You are writing a short customer review about a laptop battery that does NOT mention it stopped working.\nBrand: "
    ++ brand
    ++ "\n\nWrite a concise review title and a concise review body (1-2 sentences). Mention things like shipping, packaging, price, customer service, or general impressions, but do not imply failure. Output as:\n\nTITLE: <one short line>\nBODY: <one or two short sentences>"

/-- Split a character list at every occurrence of `c` (like `str.split`). -/
def splitOnChar (c : Char) : List Char → List (List Char)
  | [] => [[]]
  | x :: xs =>
    match splitOnChar c xs with
    | [] => [[x]]
    | h :: t => if x = c then [] :: h :: t else (x :: h) :: t

/-- `s.splitlines()` for newline-separated text. -/
def splitLines (s : String) : List String :=
  (splitOnChar '\n' s.data).map String.mk

/-- Python `str.strip()`: drop whitespace from both ends. -/
def strip (s : String) : String :=
  String.mk (((s.data.dropWhile Char.isWhitespace).reverse.dropWhile
    Char.isWhitespace).reverse)

/-- Python `str.upper()`. -/
def upper (s : String) : String :=
  String.mk (s.data.map Char.toUpper)

/-- Everything after the first `c`, when present. -/
def afterChar (c : Char) : List Char → Option (List Char)
  | [] => none
  | x :: xs => if x = c then some xs else afterChar c xs

/-- `line.split(":", 1)[1]`: everything after the first colon. -/
def afterColon (l : String) : String :=
  match afterChar ':' l.data with
  | some cs => String.mk cs
  | none => ""

/-- `parse_title_body`: scan the lines for `TITLE:` / `BODY:` (case
insensitively, after stripping) and keep the stripped remainders. -/
def parse_title_body (s : String) : String × String :=
  (splitLines s).foldl
    (fun tb line =>
      let l := strip line
      if ("TITLE:".data).isPrefixOf (upper l).data then (strip (afterColon l), tb.2)
      else if ("BODY:".data).isPrefixOf (upper l).data then (tb.1, strip (afterColon l))
      else tb)
    ("", "")

def FAILURE_TITLES : List String :=
  ["Battery died early", "Stopped holding charge", "Busted after a few months",
   "Gave out too soon", "Power issues returned"]

/-- `FAILURE_BODIES`, each template split at its `{m:.1f}` field. -/
def FAILURE_BODIES : List (String × String) :=
  [("Worked fine at first but stopped working after about ", " months."),
   ("Battery died roughly ", " months in, now it barely powers on."),
   ("After around ", " months, it gave out and will not hold charge."),
   ("About ", " months after buying, it just quit.")]

def OTHER_TITLES : List String :=
  ["Arrived fast", "Decent value", "Solid packaging", "As described", "Good service"]

def OTHER_BODIES : List String :=
  ["Shipping was quick and packaging was fine.",
   "Price was fair and it fits as expected.",
   "Customer support answered my questions promptly.",
   "Using it daily so far; no complaints.",
   "Seems fine out of the box; will update later."]

/-- `rng.choice(l)`: one uniformly drawn element of a non-empty list. -/
def choose {α : Type} [Inhabited α] (ops : RandomOps) (l : List α) (st : ℕ) : α × ℕ :=
  let c := ops.choiceIdx l.length st
  (l.getD (c.1 % l.length) default, c.2)

/-- `text = _hf_generate(prompt) if HF_TOKEN else ""` for a failure review. -/
def llm_text_failure (net : String → Option HFResp) (token : Option String)
    (brand : String) (months : ℚ) : String :=
  match token with
  | some _ => hf_generate net token (FAILURE_PROMPT brand months)
  | none => ""

/-- `text = _hf_generate(prompt) if HF_TOKEN else ""` for a distractor review. -/
def llm_text_other (net : String → Option HFResp) (token : Option String)
    (brand : String) : String :=
  match token with
  | some _ => hf_generate net token (OTHER_PROMPT brand)
  | none => ""

/-- `gen_failure_text`: optional LLM text, then template fallback for a
missing title and/or body, the body populated with the elapsed months. -/
def gen_failure_text (ops : RandomOps) (net : String → Option HFResp)
    (token : Option String) (brand : String) (months : ℚ) (st : ℕ) :
    (String × String) × ℕ :=
  let tb := parse_title_body (llm_text_failure net token brand months)
  let pt := if tb.1 = "" then choose ops FAILURE_TITLES st else (tb.1, st)
  let pb :=
    if tb.2 = "" then
      let c := choose ops FAILURE_BODIES pt.2
      (c.1.1 ++ fmtFixed 1 months ++ c.1.2, c.2)
    else (tb.2, pt.2)
  ((pt.1, pb.1), pb.2)

/-- `gen_other_text`: optional LLM text, then template fallback. -/
def gen_other_text (ops : RandomOps) (net : String → Option HFResp)
    (token : Option String) (brand : String) (st : ℕ) :
    (String × String) × ℕ :=
  let tb := parse_title_body (llm_text_other net token brand)
  let pt := if tb.1 = "" then choose ops OTHER_TITLES st else (tb.1, st)
  let pb := if tb.2 = "" then choose ops OTHER_BODIES pt.2 else (tb.2, pt.2)
  ((pt.1, pb.1), pb.2)

end GenData

namespace GenData

/-- `"0123456789ABCDEFGHIJKLMNOPQRSTUVWXYZ"`. -/
def ALPHABET : String := "0123456789ABCDEFGHIJKLMNOPQRSTUVWXYZ"

/-- `make_order_id`: `"O"` followed by nine uniformly drawn alphabet chars. -/
def make_order_id (ops : RandomOps) (st : ℕ) : String × ℕ :=
  (List.range 9).foldl
    (fun acc _ =>
      let c := ops.choiceIdx 36 acc.2
      (acc.1.push (ALPHABET.toList.getD (c.1 % 36) '0'), c.2))
    ("O", st)

/-- `pick_stars_failure`: weighted choice over `[1, 2, 3]`. -/
def pick_stars_failure (ops : RandomOps) (st : ℕ) : ℕ × ℕ :=
  let c := ops.choicesW [6/10, 3/10, 1/10] st
  ([1, 2, 3].getD (c.1 % 3) 1, c.2)

/-- `pick_stars_other`: weighted choice over `[3, 4, 5, 2]`. -/
def pick_stars_other (ops : RandomOps) (st : ℕ) : ℕ × ℕ :=
  let c := ops.choicesW [2/10, 4/10, 35/100, 5/100] st
  ([3, 4, 5, 2].getD (c.1 % 4) 3, c.2)

/-- `pick_verified`: `"true"` with probability 0.85 else `"false"`. -/
def pick_verified (ops : RandomOps) (st : ℕ) : String × ℕ :=
  let c := ops.randUnit st
  (if c.1 < 85/100 then "true" else "false", c.2)

/-- `months_to_days`: 30.44 days per month. -/
def months_to_days (m : ℚ) : ℚ := m * (3044 / 100)

/-- `rand_date_ymd`: a uniform day offset in the purchase window, as a day
count from the window start (date formatting is an injective rendering). -/
def rand_date (spanDays : ℕ) (ops : RandomOps) (st : ℕ) : ℕ × ℕ :=
  let c := ops.randrange (spanDays + 1) st
  (c.1 % (spanDays + 1), c.2)

/-- `sample_gamma_lifespans`: numpy Gamma draws from the dedicated seeded
generator, clamped elementwise by `np.maximum(x, np.finfo(float).eps)`. -/
def sample_gamma_lifespans (ops : RandomOps) (k θ : ℚ) (n : ℕ) (seed : ℕ) : List ℚ :=
  (ops.gammaSample k θ n seed).map fun v => max v eps

/-- One output TSV row at value level; dates are day counts from the window
start (`datePosted` keeps the fractional day the `timedelta` carries). -/
structure Row where
  rid : String
  brand : String
  datePurchased : ℕ
  datePosted : ℚ
  title : String
  body : String
  stars : ℕ
  verified : String
  orderId : String
  token : String
deriving Inhabited, DecidableEq

/-- `f"{i:03d}"`. -/
def pad3 (i : ℕ) : String :=
  if i < 10 then "00" ++ toString i
  else if i < 100 then "0" ++ toString i
  else toString i

/-- The generator's CLI parameters (purchase window given as its day span). -/
structure Params where
  nFailAlpha : ℕ
  nFailBeta : ℕ
  nOtherAlpha : ℕ
  nOtherBeta : ℕ
  kAlpha : ℚ
  thAlpha : ℚ
  kBeta : ℚ
  thBeta : ℚ
  spanDays : ℕ

/-- Body of the two failure-row loops of `make_dataset`: purchase date, post
date, text, stars, verified flag, order id, and the two-decimal ground-truth
elapsed-months token. -/
def fail_row (ops : RandomOps) (net : String → Option HFResp) (token : Option String)
    (p : Params) (rid brand : String) (m : ℚ) (st : ℕ) : Row × ℕ :=
  let d1 := rand_date p.spanDays ops st
  let tb := gen_failure_text ops net token brand m d1.2
  let s := pick_stars_failure ops tb.2
  let v := pick_verified ops s.2
  let o := make_order_id ops v.2
  ({ rid := rid, brand := brand, datePurchased := d1.1,
     datePosted := (d1.1 : ℚ) + months_to_days m,
     title := tb.1.1, body := tb.1.2, stars := s.1, verified := v.1,
     orderId := o.1, token := fmtFixed 2 m }, o.2)

/-- Body of the two non-failure (distractor) loops of `make_dataset`: a benign
uniform elapsed time in `[0.2, 18]` months and an empty ground-truth token. -/
def other_row (ops : RandomOps) (net : String → Option HFResp) (token : Option String)
    (p : Params) (rid brand : String) (st : ℕ) : Row × ℕ :=
  let d1 := rand_date p.spanDays ops st
  let u := ops.uniform (2/10) 18 d1.2
  let tb := gen_other_text ops net token brand u.2
  let s := pick_stars_other ops tb.2
  let v := pick_verified ops s.2
  let o := make_order_id ops v.2
  ({ rid := rid, brand := brand, datePurchased := d1.1,
     datePosted := (d1.1 : ℚ) + months_to_days u.1,
     title := tb.1.1, body := tb.1.2, stars := s.1, verified := v.1,
     orderId := o.1, token := "" }, o.2)

/-- Thread the RNG state through a loop that emits one value per element. -/
def mapState {α β : Type} (f : ℕ → α → β × ℕ) : ℕ → List α → List β × ℕ
  | st, [] => ([], st)
  | st, a :: t =>
    let b := f st a
    let r := mapState f b.2 t
    (b.1 :: r.1, r.2)

/-- One failure loop (`for i, m in enumerate(lifespans, 1)`). -/
def failure_rows (ops : RandomOps) (net : String → Option HFResp)
    (token : Option String) (p : Params) (ridStem brand : String) (k θ : ℚ)
    (nf : ℕ) (sampleSeed : ℕ) (st : ℕ) : List Row × ℕ :=
  mapState
    (fun st im => fail_row ops net token p (ridStem ++ pad3 (im.1 + 1)) brand im.2 st)
    st (sample_gamma_lifespans ops k θ nf sampleSeed).enum

/-- One distractor loop (`for i in range(n)`). -/
def other_rows (ops : RandomOps) (net : String → Option HFResp)
    (token : Option String) (p : Params) (ridStem brand : String) (n : ℕ)
    (st : ℕ) : List Row × ℕ :=
  mapState
    (fun st i => other_row ops net token p (ridStem ++ pad3 (i + 1)) brand st)
    st (List.range n)

/-- Alpha failures, from the freshly seeded `random.Random(seed)` state. -/
def gd_stageA (ops : RandomOps) (net : String → Option HFResp)
    (token : Option String) (p : Params) (seed : ℕ) : List Row × ℕ :=
  failure_rows ops net token p "rA" "Alpha" p.kAlpha p.thAlpha p.nFailAlpha
    (seed + 11) (ops.init seed)

/-- Beta failures, continuing the same RNG stream. -/
def gd_stageB (ops : RandomOps) (net : String → Option HFResp)
    (token : Option String) (p : Params) (seed : ℕ) : List Row × ℕ :=
  failure_rows ops net token p "rB" "Beta" p.kBeta p.thBeta p.nFailBeta
    (seed + 22) (gd_stageA ops net token p seed).2

/-- Alpha distractors. -/
def gd_stageOA (ops : RandomOps) (net : String → Option HFResp)
    (token : Option String) (p : Params) (seed : ℕ) : List Row × ℕ :=
  other_rows ops net token p "rAX" "Alpha" p.nOtherAlpha
    (gd_stageB ops net token p seed).2

/-- Beta distractors. -/
def gd_stageOB (ops : RandomOps) (net : String → Option HFResp)
    (token : Option String) (p : Params) (seed : ℕ) : List Row × ℕ :=
  other_rows ops net token p "rBX" "Beta" p.nOtherBeta
    (gd_stageOA ops net token p seed).2

/-- The failure rows of a run (Alpha then Beta), pre-shuffle. -/
def gd_fail_rows (ops : RandomOps) (net : String → Option HFResp)
    (token : Option String) (p : Params) (seed : ℕ) : List Row :=
  (gd_stageA ops net token p seed).1 ++ (gd_stageB ops net token p seed).1

/-- All rows of a run in generation order, pre-shuffle. -/
def gd_all_rows (ops : RandomOps) (net : String → Option HFResp)
    (token : Option String) (p : Params) (seed : ℕ) : List Row :=
  gd_fail_rows ops net token p seed ++ (gd_stageOA ops net token p seed).1
    ++ (gd_stageOB ops net token p seed).1

/-- Reorder `rows` by an index permutation (the effect of `rng.shuffle`). -/
def apply_perm (perm : List ℕ) (rows : List Row) : List Row :=
  perm.map fun i => rows.getD i default

/-- `make_dataset` with the HF credential state `token`: the rows of the
written TSV, in file order. -/
def make_dataset (ops : RandomOps) (net : String → Option HFResp)
    (token : Option String) (p : Params) (seed : ℕ) : List Row :=
  let rows := gd_all_rows ops net token p seed
  apply_perm (ops.shufflePerm rows.length (gd_stageOB ops net token p seed).2).1 rows

end GenData

namespace GenData

/-! ### C5: determinism with the external text path disabled -/

/-- Claim C5: with no API credential configured (`token = none`), the rows
`make_dataset` writes are a deterministic function of the seed and parameters
alone: two runs against arbitrarily different external-endpoint behaviours
produce identical output, because every random choice is drawn from generators
seeded only by the given seed and the endpoint is never consulted. -/
theorem make_dataset_deterministic (ops : RandomOps)
    (net₁ net₂ : String → Option HFResp) (p : Params) (seed : ℕ) :
    make_dataset ops net₁ none p seed = make_dataset ops net₂ none p seed := rfl

/-! ### C7: the text path never propagates an external failure -/

theorem append_mid_ne_empty (a b c : String) : a ++ "." ++ b ++ c ≠ "" := by
  intro hc
  have h := congrArg String.length hc
  rw [String.length_append, String.length_append, String.length_append] at h
  have hd : String.length "." = 1 := rfl
  have he : String.length "" = 0 := rfl
  omega

theorem fmtFixed_ne_empty (d : ℕ) (q : ℚ) : fmtFixed d q ≠ "" := by
  intro hc
  have h := congrArg String.length hc
  rw [fmtFixed] at hc
  exact absurd hc (by
    intro hc'
    have h2 := congrArg String.length hc'
    rw [String.length_append, String.length_append, String.length_append] at h2
    have hd : String.length "." = 1 := rfl
    have he : String.length "" = 0 := rfl
    omega)

theorem append_left_ne_empty {a : String} (b c : String) (h : a ≠ "") :
    a ++ b ++ c ≠ "" := by
  intro hc
  have h2 := congrArg String.length hc
  rw [String.length_append, String.length_append] at h2
  have he : String.length "" = 0 := rfl
  apply h
  have h0 : a.length = 0 := by omega
  cases a with
  | mk data =>
    cases data with
    | nil => rfl
    | cons x xs => simp [String.length] at h0

theorem choose_mem {α : Type} [Inhabited α] (ops : RandomOps) (l : List α)
    (h : l ≠ []) (st : ℕ) : (choose ops l st).1 ∈ l := by
  have hlen : 0 < l.length := List.length_pos.mpr h
  have hm : (ops.choiceIdx l.length st).1 % l.length < l.length := Nat.mod_lt _ hlen
  rw [choose]
  simp only
  rw [List.getD_eq_getElem l default hm]
  exact List.getElem_mem hm

theorem parse_title_body_empty : parse_title_body "" = ("", "") := by decide

theorem gen_failure_text_title_ne (ops : RandomOps) (net : String → Option HFResp)
    (token : Option String) (brand : String) (months : ℚ) (st : ℕ) :
    (gen_failure_text ops net token brand months st).1.1 ≠ "" := by
  have hall : ∀ s ∈ FAILURE_TITLES, s ≠ "" := by decide
  by_cases h1 : (parse_title_body (llm_text_failure net token brand months)).1 = ""
  · simp only [gen_failure_text, h1, if_pos]
    exact hall _ (choose_mem ops FAILURE_TITLES (by decide) st)
  · simp only [gen_failure_text, h1, if_neg, ite_false]
    exact h1

theorem gen_failure_text_body_ne (ops : RandomOps) (net : String → Option HFResp)
    (token : Option String) (brand : String) (months : ℚ) (st : ℕ) :
    (gen_failure_text ops net token brand months st).1.2 ≠ "" := by
  have hall : ∀ pr ∈ FAILURE_BODIES, pr.1 ≠ "" := by decide
  by_cases h2 : (parse_title_body (llm_text_failure net token brand months)).2 = ""
  · simp only [gen_failure_text, h2, if_pos]
    split
    · exact append_left_ne_empty _ _
        (hall _ (choose_mem ops FAILURE_BODIES (by decide) _))
    · exact append_left_ne_empty _ _
        (hall _ (choose_mem ops FAILURE_BODIES (by decide) _))
  · simp only [gen_failure_text, h2, if_neg, ite_false]
    exact h2

theorem gen_other_text_title_ne (ops : RandomOps) (net : String → Option HFResp)
    (token : Option String) (brand : String) (st : ℕ) :
    (gen_other_text ops net token brand st).1.1 ≠ "" := by
  have hall : ∀ s ∈ OTHER_TITLES, s ≠ "" := by decide
  by_cases h1 : (parse_title_body (llm_text_other net token brand)).1 = ""
  · simp only [gen_other_text, h1, if_pos]
    exact hall _ (choose_mem ops OTHER_TITLES (by decide) st)
  · simp only [gen_other_text, h1, if_neg, ite_false]
    exact h1

theorem gen_other_text_body_ne (ops : RandomOps) (net : String → Option HFResp)
    (token : Option String) (brand : String) (st : ℕ) :
    (gen_other_text ops net token brand st).1.2 ≠ "" := by
  have hall : ∀ s ∈ OTHER_BODIES, s ≠ "" := by decide
  by_cases h2 : (parse_title_body (llm_text_other net token brand)).2 = ""
  · simp only [gen_other_text, h2, if_pos]
    split
    · exact hall _ (choose_mem ops OTHER_BODIES (by decide) _)
    · exact hall _ (choose_mem ops OTHER_BODIES (by decide) _)
  · simp only [gen_other_text, h2, if_neg, ite_false]
    exact h2

end GenData

namespace GenData

/-- Claim C7: `_hf_generate` returns `""` for every failure condition of the
external call — missing credential, raised exception (`net prompt = none`,
covering timeout and network errors), or an unexpected payload — without
propagating anything; `gen_failure_text` / `gen_other_text` always produce a
non-empty title and body for every token and every endpoint behaviour, and
with the call disabled they fill both from the fixed template pools, failure
bodies populated with the formatted elapsed months. -/
theorem text_path_never_fails (ops : RandomOps) (net : String → Option HFResp)
    (tok prompt brand : String) (months : ℚ) (st : ℕ) :
    hf_generate net none prompt = "" ∧
    (net prompt = none → hf_generate net (some tok) prompt = "") ∧
    (net prompt = some HFResp.other → hf_generate net (some tok) prompt = "") ∧
    (∀ token : Option String,
      (gen_failure_text ops net token brand months st).1.1 ≠ "" ∧
      (gen_failure_text ops net token brand months st).1.2 ≠ "" ∧
      (gen_other_text ops net token brand st).1.1 ≠ "" ∧
      (gen_other_text ops net token brand st).1.2 ≠ "") ∧
    ((gen_failure_text ops net none brand months st).1.1 ∈ FAILURE_TITLES ∧
      (∃ pr ∈ FAILURE_BODIES, (gen_failure_text ops net none brand months st).1.2 =
        pr.1 ++ fmtFixed 1 months ++ pr.2) ∧
      (gen_other_text ops net none brand st).1.1 ∈ OTHER_TITLES ∧
      (gen_other_text ops net none brand st).1.2 ∈ OTHER_BODIES) := by
  have hparse : parse_title_body (llm_text_failure net none brand months) = ("", "") :=
    parse_title_body_empty
  have hparse' : parse_title_body (llm_text_other net none brand) = ("", "") :=
    parse_title_body_empty
  refine ⟨rfl, ?_, ?_, ?_, ?_, ?_, ?_, ?_⟩
  · intro h
    simp [hf_generate, h]
  · intro h
    simp [hf_generate, h]
  · intro token
    exact ⟨gen_failure_text_title_ne ops net token brand months st,
      gen_failure_text_body_ne ops net token brand months st,
      gen_other_text_title_ne ops net token brand st,
      gen_other_text_body_ne ops net token brand st⟩
  · simp only [gen_failure_text, hparse, if_pos]
    exact choose_mem ops FAILURE_TITLES (by decide) st
  · simp only [gen_failure_text, hparse, if_pos]
    exact ⟨(choose ops FAILURE_BODIES (choose ops FAILURE_TITLES st).2).1,
      choose_mem ops FAILURE_BODIES (by decide) _, rfl⟩
  · simp only [gen_other_text, hparse', if_pos]
    exact choose_mem ops OTHER_TITLES (by decide) st
  · simp only [gen_other_text, hparse', if_pos]
    exact choose_mem ops OTHER_BODIES (by decide) _

/-- An everywhere-failing endpoint (every call raises). -/
def netFail : String → Option HFResp := fun _ => none

/-- A trivial concrete RNG-stream bundle for instantiating the theorems. -/
def ops0 : RandomOps where
  init := fun _ => 0
  randrange := fun _ st => (0, st)
  choiceIdx := fun _ st => (0, st)
  choicesW := fun _ st => (0, st)
  randUnit := fun st => (0, st)
  uniform := fun a _ st => (a, st)
  gammaSample := fun _ _ n _ => List.replicate n 1
  shufflePerm := fun n st => (List.range n, st)

/-- Concrete instance of `text_path_never_fails`: an endpoint that always
raises, a configured token, and the disabled-credential path. -/
theorem text_path_never_fails_witness :
    (netFail "p" = none) ∧
    hf_generate netFail none "p" = "" ∧
    hf_generate netFail (some "t") "p" = "" ∧
    (gen_failure_text ops0 netFail none "Alpha" 5 0).1.1 ≠ "" ∧
    (gen_failure_text ops0 netFail none "Alpha" 5 0).1.1 ∈ FAILURE_TITLES :=
  ⟨rfl,
    (text_path_never_fails ops0 netFail "t" "p" "Alpha" 5 0).1,
    (text_path_never_fails ops0 netFail "t" "p" "Alpha" 5 0).2.1 rfl,
    ((text_path_never_fails ops0 netFail "t" "p" "Alpha" 5 0).2.2.2.1 none).1,
    (text_path_never_fails ops0 netFail "t" "p" "Alpha" 5 0).2.2.2.2.1⟩

end GenData

namespace GenData

/-! ### C10: the elapsed-months token is non-empty exactly on failure rows -/

theorem mapState_mem {α β : Type} (f : ℕ → α → β × ℕ) :
    ∀ (l : List α) (st : ℕ) (b : β), b ∈ (mapState f st l).1 →
      ∃ st' a, a ∈ l ∧ b = (f st' a).1 := by
  intro l
  induction l with
  | nil => intro st b hb; simp [mapState] at hb
  | cons a t ih =>
    intro st b hb
    simp only [mapState, List.mem_cons] at hb
    rcases hb with rfl | hb
    · exact ⟨st, a, by simp, rfl⟩
    · obtain ⟨st', a', ha', rfl⟩ := ih _ b hb
      exact ⟨st', a', by simp [ha'], rfl⟩

theorem fail_row_token (ops : RandomOps) (net : String → Option HFResp)
    (token : Option String) (p : Params) (rid brand : String) (m : ℚ) (st : ℕ) :
    ((fail_row ops net token p rid brand m st).1).token = fmtFixed 2 m := rfl

theorem other_row_token (ops : RandomOps) (net : String → Option HFResp)
    (token : Option String) (p : Params) (rid brand : String) (st : ℕ) :
    ((other_row ops net token p rid brand st).1).token = "" := rfl

theorem sample_gamma_lifespans_eps (ops : RandomOps) (k θ : ℚ) (n seed : ℕ) :
    ∀ m ∈ sample_gamma_lifespans ops k θ n seed, eps ≤ m := by
  intro m hm
  rw [sample_gamma_lifespans, List.mem_map] at hm
  obtain ⟨v, _, rfl⟩ := hm
  exact le_max_right v eps

theorem failure_rows_token (ops : RandomOps) (net : String → Option HFResp)
    (token : Option String) (p : Params) (ridStem brand : String) (k θ : ℚ)
    (nf sampleSeed st : ℕ) :
    ∀ r ∈ (failure_rows ops net token p ridStem brand k θ nf sampleSeed st).1,
      ∃ m, eps ≤ m ∧ r.token = fmtFixed 2 m := by
  intro r hr
  rw [failure_rows] at hr
  obtain ⟨st', im, him, rfl⟩ := mapState_mem _ _ _ _ hr
  have h2 : im.2 ∈ sample_gamma_lifespans ops k θ nf sampleSeed :=
    List.getElem?_mem (List.mem_enum_iff_getElem?.mp him)
  exact ⟨im.2, sample_gamma_lifespans_eps ops k θ nf sampleSeed im.2 h2, rfl⟩

theorem other_rows_token (ops : RandomOps) (net : String → Option HFResp)
    (token : Option String) (p : Params) (ridStem brand : String) (n st : ℕ) :
    ∀ r ∈ (other_rows ops net token p ridStem brand n st).1, r.token = "" := by
  intro r hr
  rw [other_rows] at hr
  obtain ⟨st', i, _, rfl⟩ := mapState_mem _ _ _ _ hr
  rfl

theorem range_map_getD (rows : List Row) :
    (List.range rows.length).map (fun i => rows.getD i default) = rows := by
  apply List.ext_getElem
  · simp
  · intro i h1 h2
    rw [List.getElem_map, List.getElem_range, List.getD_eq_getElem rows default h2]

theorem apply_perm_perm {perm : List ℕ} {rows : List Row}
    (h : perm.Perm (List.range rows.length)) :
    (apply_perm perm rows).Perm rows := by
  have h2 := h.map (fun i => rows.getD i default)
  rw [range_map_getD rows] at h2
  exact h2

/-- Claim C10: every lifespan `sample_gamma_lifespans` produces is clamped to
at least machine epsilon (hence strictly positive); every failure row of
`make_dataset` carries the two-decimal rendering of its clamped lifespan as a
non-empty token; and in the shuffled dataset a row's token is non-empty
exactly when the row is a failure row. -/
theorem token_nonempty_iff_failure (ops : RandomOps) (net : String → Option HFResp)
    (token : Option String) (p : Params) (seed : ℕ)
    (hperm : ∀ n st, ((ops.shufflePerm n st).1).Perm (List.range n)) :
    (∀ k θ : ℚ, ∀ n s : ℕ, ∀ m ∈ sample_gamma_lifespans ops k θ n s, eps ≤ m ∧ 0 < m) ∧
    (∀ r ∈ gd_fail_rows ops net token p seed,
      ∃ m, eps ≤ m ∧ 0 < m ∧ r.token = fmtFixed 2 m ∧ r.token ≠ "") ∧
    (∀ r ∈ make_dataset ops net token p seed,
      (r.token ≠ "" ↔ r ∈ gd_fail_rows ops net token p seed)) := by
  have heps : (0:ℚ) < eps := by norm_num [eps]
  have hsample : ∀ k θ : ℚ, ∀ n s : ℕ,
      ∀ m ∈ sample_gamma_lifespans ops k θ n s, eps ≤ m ∧ 0 < m := by
    intro k θ n s m hm
    have h := sample_gamma_lifespans_eps ops k θ n s m hm
    exact ⟨h, lt_of_lt_of_le heps h⟩
  have hfail : ∀ r ∈ gd_fail_rows ops net token p seed,
      ∃ m, eps ≤ m ∧ 0 < m ∧ r.token = fmtFixed 2 m ∧ r.token ≠ "" := by
    intro r hr
    rw [gd_fail_rows, List.mem_append] at hr
    have hex : ∃ m, eps ≤ m ∧ r.token = fmtFixed 2 m := by
      rcases hr with h | h
      · rw [gd_stageA] at h
        exact failure_rows_token ops net token p "rA" "Alpha" p.kAlpha p.thAlpha
          p.nFailAlpha (seed + 11) (ops.init seed) r h
      · rw [gd_stageB] at h
        exact failure_rows_token ops net token p "rB" "Beta" p.kBeta p.thBeta
          p.nFailBeta (seed + 22) (gd_stageA ops net token p seed).2 r h
    obtain ⟨m, hm, ht⟩ := hex
    refine ⟨m, hm, lt_of_lt_of_le heps hm, ht, ?_⟩
    rw [ht]
    exact fmtFixed_ne_empty 2 m
  have hp : (make_dataset ops net token p seed).Perm (gd_all_rows ops net token p seed) := by
    rw [make_dataset]
    exact apply_perm_perm (hperm _ _)
  refine ⟨hsample, hfail, ?_⟩
  intro r hr
  have hr' : r ∈ gd_all_rows ops net token p seed := hp.mem_iff.mp hr
  constructor
  · intro htok
    rw [gd_all_rows, List.mem_append, List.mem_append] at hr'
    rcases hr' with (h | h) | h
    · exact h
    · exfalso
      apply htok
      rw [gd_stageOA] at h
      exact other_rows_token ops net token p "rAX" "Alpha" p.nOtherAlpha
        (gd_stageB ops net token p seed).2 r h
    · exfalso
      apply htok
      rw [gd_stageOB] at h
      exact other_rows_token ops net token p "rBX" "Beta" p.nOtherBeta
        (gd_stageOA ops net token p seed).2 r h
  · intro hf
    obtain ⟨m, _, _, _, hne⟩ := hfail r hf
    exact hne

/-- A small concrete parameter set (one row of each kind, the source's default
Gamma parameters, a two-year purchase window). -/
def p0 : Params :=
  { nFailAlpha := 1, nFailBeta := 1, nOtherAlpha := 1, nOtherBeta := 1,
    kAlpha := 2, thAlpha := 4, kBeta := 3, thBeta := 3, spanDays := 730 }

/-- Concrete instance of `token_nonempty_iff_failure` with the trivial RNG
bundle (whose shuffle is the identity permutation) and a failing endpoint. -/
theorem token_nonempty_iff_failure_witness :
    (∀ n st, ((ops0.shufflePerm n st).1).Perm (List.range n)) ∧
    (∀ r ∈ make_dataset ops0 netFail none p0 1234,
      (r.token ≠ "" ↔ r ∈ gd_fail_rows ops0 netFail none p0 1234)) :=
  ⟨fun _ _ => List.Perm.refl _,
    (token_nonempty_iff_failure ops0 netFail none p0 1234
      (fun _ _ => List.Perm.refl _)).2.2⟩

end GenData
